import Mathlib

/-!
Shallow embedding of the optimization core of `Yagi_optimizer.py`
(3-element Yagi antenna optimizer).

The embedding covers:
* the geometry builder `geometry_yagi` (source lines 487-607),
* the frequency sweep `get_gain_swr_range` (lines 621-649),
* the objective function `target` produced by
  `create_optimization_target` (lines 658-751),
* the pre-optimization feasibility check and bound derivation in
  `updatePlot` (lines 398-426),
* the configuration-file reader in `clicked` (lines 200-229).

Python floats are modelled by `FloatVal`: a finite rational or one of the
special values NaN / +inf / -inf.  Binary rounding is not modelled; the
claims under study depend only on comparisons, the special values and
exact arithmetic.  The external NEC2 field solver is modelled as an
oracle parameter (`SimOracle`); `sys` exits and Python exceptions are
modelled by the error type `PyErr`.
-/

deriving instance DecidableEq for Except

/-- Model of a Python float value: a finite rational or NaN / +inf / -inf. -/
inductive FloatVal where
  | nan : FloatVal
  | inf : FloatVal
  | ninf : FloatVal
  | fin : ℚ → FloatVal
  deriving DecidableEq

/-- IEEE-style strict `<` on model floats: every comparison involving NaN
is false; -inf is below and +inf above every finite value. -/
def FloatVal.lt : FloatVal → FloatVal → Bool
  | .nan, _ => false
  | _, .nan => false
  | .ninf, .ninf => false
  | .ninf, _ => true
  | _, .ninf => false
  | .inf, _ => false
  | .fin _, .inf => true
  | .fin a, .fin b => decide (a < b)

/-- IEEE-style `<=` on model floats: every comparison involving NaN is false. -/
def FloatVal.le : FloatVal → FloatVal → Bool
  | .nan, _ => false
  | _, .nan => false
  | .ninf, _ => true
  | _, .ninf => false
  | _, .inf => true
  | .inf, _ => false
  | .fin a, .fin b => decide (a ≤ b)

/-- Python `math.isnan`. -/
def FloatVal.isnan : FloatVal → Bool
  | .nan => true
  | _ => false

/-- Negation of a model float (used for wire coordinates such as `-d1`). -/
def FloatVal.neg : FloatVal → FloatVal
  | .nan => .nan
  | .inf => .ninf
  | .ninf => .inf
  | .fin q => .fin (-q)

/-- Halving of a model float (used for wire coordinates such as `l1/2`). -/
def FloatVal.half : FloatVal → FloatVal
  | .nan => .nan
  | .inf => .inf
  | .ninf => .ninf
  | .fin q => .fin (q / 2)

/-- Abnormal outcomes of the Python code.  `runtimeError` is the
`RuntimeError` raised by the NEC2 solver (the only exception caught by
`target`); `overflowError` is raised by `int()` applied to an infinite
float; `valueError` by `int()` applied to NaN; `zeroDivisionError` by
float division by zero; `fatalError` stands for the `sys` exit calls that
abort the whole application (segment-length underflow at line 536,
folded-dipole junction-ratio violation at line 588, interference
infeasibility at line 406). -/
inductive PyErr where
  | runtimeError : PyErr
  | overflowError : PyErr
  | valueError : PyErr
  | zeroDivisionError : PyErr
  | fatalError : PyErr
  deriving DecidableEq

/-- Python `int()` applied to a finite float: truncation toward zero.
`Rat.floor` is used rather than `Int.floor` so that the kernel can
evaluate it; the two agree on `ℚ` (see `rat_floor_eq_intFloor`). -/
def pyInt (q : ℚ) : ℤ := if 0 ≤ q then q.floor else -(-q).floor

/-- Python `int(x / s)` for a model float `x` and a finite divisor `s`:
division by zero raises, `int()` of an infinity raises `OverflowError`
and `int()` of NaN raises `ValueError`. -/
def pyIntDiv (x : FloatVal) (s : ℚ) : Except PyErr ℤ :=
  if s = 0 then .error .zeroDivisionError
  else match x with
    | .nan => .error .valueError
    | .inf => .error .overflowError
    | .ninf => .error .overflowError
    | .fin q => .ok (pyInt (q / s))

/-- Conductor material choices of the `ElementMaterialComboBox` (line 129). -/
inductive Material where
  | aluminum : Material
  | brass : Material
  | stainlessSteel : Material
  | copper : Material
  deriving DecidableEq

/-- Conductivity table of `geometry_yagi` (source lines 492-499), in mhos/m. -/
def conductivityOf : Material → ℚ
  | .brass => 15600000
  | .aluminum => 25000000
  | .stainlessSteel => 1450000
  | .copper => 57471264

/-- Configuration state of the application relevant to the optimization
core: the spinner-box values read by `onValueChanged`, plus
`length_segments`, the wire segment length computed at source lines
505-531.  In the source `length_segments` is the geometric mean
`sqrt(length_segments_max * length_segments_min)` (or the max bound when
the bounds cross), an irrational number in general; the embedding takes
it as a configuration input, constrained only by the source's subsequent
`wavelength/1000` check, so every theorem below holds for the actual
computed value. -/
structure YagiConfig where
  elementDiameter : ℚ      -- inches (line 288)
  foldedDipoleSpacing : ℚ  -- meters; 0 when the folded dipole is disabled (lines 310-317)
  designFrq : ℚ            -- MHz
  useFoldedDipole : Bool
  elementMaterial : Material
  system_impedance : ℚ
  vswrWeight : ℚ
  fwdGainWeight : ℚ
  fbRatioWeight : ℚ
  start_frq_opt : ℚ
  stop_frq_opt : ℚ
  step_frq_opt : ℚ
  length_segments : ℚ
  deriving DecidableEq

/-- Wavelength in meters from the design frequency in MHz
(source lines 368, 490): `299792e3/(designFrq*1000000)`. -/
def wavelength (designFrq : ℚ) : ℚ := 299792000 / (designFrq * 1000000)

/-- Wire radius in meters from the element diameter in inches
(source lines 399, 488): `diameter/2 * 0.0254`. -/
def wire_radius (elementDiameter : ℚ) : ℚ := elementDiameter / 2 * 0.0254

/-- Length clamp of `geometry_yagi` (source lines 548-550): an element
length below twice the segment length, or NaN, is replaced by twice the
segment length. -/
def clampL (x : FloatVal) (ls : ℚ) : FloatVal :=
  if x.lt (.fin (2 * ls)) || x.isnan then .fin (2 * ls) else x

/-- Spacing clamp of `geometry_yagi` (source lines 551-556): a spacing
below the mechanical-interference floor is raised to the floor.  Note
that, unlike the length clamp, NaN is not tested here and passes through. -/
def clampD (x : FloatVal) (flr : ℚ) : FloatVal :=
  if x.lt (.fin flr) then .fin flr else x

/-- Odd-forcing of a segment count (source lines 565, 570, 596):
an even count is decremented by one. -/
def oddify (n : ℤ) : ℤ := if n % 2 = 0 then n - 1 else n

/-- Segment count of a main element (source lines 548-550 with 564-565,
569-570, 595-596): the length is clamped, divided by the segment length,
truncated by `int()` and forced odd. -/
def elementSegments (x : FloatVal) (ls : ℚ) : Except PyErr ℤ :=
  (pyIntDiv (clampL x ls) ls).map oddify

/-- One wire of the NEC geometry, as produced by `geo.wire` calls. -/
structure Wire where
  tag : ℕ
  nr_segments : ℤ
  src : FloatVal × FloatVal × FloatVal
  dst : FloatVal × FloatVal × FloatVal
  radius : ℚ
  deriving DecidableEq

/-- The wire mesh plus feed data assembled by `geometry_yagi`. -/
structure Mesh where
  wires : List Wire
  driver_center_seg : ℤ
  conductivity : ℚ
  excitation_tag : ℕ
  excitation_voltage : ℚ
  deriving DecidableEq

/-- Folded-dipole wires (source lines 575-592): the parallel conductor
(tag 4, reusing the driven element's segment count) and the two end
risers (tags 5 and 6), guarded by the junction segment-ratio check that
aborts the application when `max/min > 5`. -/
def foldedDipoleWires (fds ls wr : ℚ) (l2 : FloatVal) (nr2 : ℤ) :
    Except PyErr (List Wire) :=
  let nrEnd : ℤ := max 1 (pyInt (fds / ls))
  let lengthEnd : ℚ := fds / (nrEnd : ℚ)
  let mx := max lengthEnd ls
  let mn := min lengthEnd ls
  if mn = 0 then .error .zeroDivisionError
  else if 5 < mx / mn then .error .fatalError
  else .ok
    [⟨4, nr2, (.fin fds, l2.half.neg, .fin 0), (.fin fds, l2.half, .fin 0), wr⟩,
     ⟨5, nrEnd, (.fin 0, l2.half.neg, .fin 0), (.fin fds, l2.half.neg, .fin 0), wr⟩,
     ⟨6, nrEnd, (.fin 0, l2.half, .fin 0), (.fin fds, l2.half, .fin 0), wr⟩]

/-- The geometry builder `geometry_yagi` (source lines 487-607).
Inputs are the five candidate dimensions; the result is the wire mesh
with feed data, or the abnormal outcome the Python code would produce
(application exit on the `wavelength/1000` segment-length check or the
folded-dipole junction check; `OverflowError` when an infinite length
reaches `int()`).  Wire construction order follows the source: reflector
(tag 1), driven element (tag 2), folded-dipole wires (tags 4, 5, 6) when
enabled, director (tag 3). -/
def geometry_yagi (cfg : YagiConfig) (l1 l2 l3 d1 d2 : FloatVal) :
    Except PyErr Mesh :=
  let wr := wire_radius cfg.elementDiameter
  let fds := cfg.foldedDipoleSpacing
  let wl := wavelength cfg.designFrq
  let ls := cfg.length_segments
  if ls < wl / 1000 then .error .fatalError
  else
    let l1c := clampL l1 ls
    let l2c := clampL l2 ls
    let l3c := clampL l3 ls
    let d1c := clampD d1 (wr * 2 + ls / 1000)
    let d2c := clampD d2 (fds + wr * 2 + ls / 1000)
    match elementSegments l1 ls with
    | .error e => .error e
    | .ok nr1 =>
      match elementSegments l2 ls with
      | .error e => .error e
      | .ok nr2 =>
        let driver_center_seg := nr2 / 2 + 1
        match (if cfg.useFoldedDipole then foldedDipoleWires fds ls wr l2c nr2 else .ok []) with
        | .error e => .error e
        | .ok foldedWs =>
          match elementSegments l3 ls with
          | .error e => .error e
          | .ok nr3 =>
            .ok
              { wires :=
                  [⟨1, nr1, (d1c.neg, l1c.half.neg, .fin 0), (d1c.neg, l1c.half, .fin 0), wr⟩,
                   ⟨2, nr2, (.fin 0, l2c.half.neg, .fin 0), (.fin 0, l2c.half, .fin 0), wr⟩]
                  ++ foldedWs ++
                  [⟨3, nr3, (d2c, l3c.half.neg, .fin 0), (d2c, l3c.half, .fin 0), wr⟩],
                driver_center_seg := driver_center_seg,
                conductivity := conductivityOf cfg.elementMaterial,
                excitation_tag := 2,
                excitation_voltage := 1 }

/-- One per-frequency record returned by the NEC2 solver inside
`get_gain_swr_range` (source lines 644-647): the frequency, the forward
gain at azimuth 0, the reverse gain at azimuth 180, and the VSWR. -/
structure SimSample where
  freq : ℚ
  fwd_gain : ℚ
  rev_gain : ℚ
  vswr : ℚ
  deriving DecidableEq

/-- The external NEC2 solver, modelled as an oracle: given a frequency
and a mesh it returns one sample or fails (a `RuntimeError` in Python). -/
def SimOracle : Type := ℚ → Mesh → Except PyErr SimSample

/-- The `frange` generator of `get_gain_swr_range` (source lines
627-631): the values `start, start+step, ...` while `<= stop`.  When the
step is not positive and `start <= stop` the source loops forever; the
embedding is only used with a positive step and returns `[]` otherwise. -/
def frange (start stop step : ℚ) : List ℚ :=
  if 0 < step ∧ start ≤ stop then
    (List.range (((stop - start) / step).floor.toNat + 1)).map
      (fun i => start + (i : ℚ) * step)
  else []

/-- The frequency sweep `get_gain_swr_range` (source lines 621-649): one
fresh geometry and one solver call per frequency.  The source returns
four parallel lists; the embedding zips them into a list of samples. -/
def get_gain_swr_range (cfg : YagiConfig) (sim : SimOracle)
    (l1 l2 l3 d1 d2 : FloatVal) (start stop step : ℚ) :
    Except PyErr (List SimSample) :=
  (frange start stop step).mapM (fun freq =>
    match geometry_yagi cfg l1 l2 l3 d1 d2 with
    | .error e => .error e
    | .ok nec => sim freq nec)

/-- The validity check at source line 681: any length strictly below the
element diameter (meters), `d1` at or below the diameter, or `d2` at or
below the folded-dipole spacing plus the diameter, makes the candidate
invalid.  All comparisons are IEEE comparisons on floats. -/
def dimsOutOfRange (dm fds : ℚ) (l1 l2 l3 d1 d2 : FloatVal) : Bool :=
  l1.lt (.fin dm) || l2.lt (.fin dm) || l3.lt (.fin dm) ||
    d1.le (.fin dm) || d2.le (.fin (fds + dm))

/-- The NaN check at source line 684. -/
def anyNan (l1 l2 l3 d1 d2 : FloatVal) : Bool :=
  l1.isnan || l2.isnan || l3.isnan || d1.isnan || d2.isnan

/-- The forward-gain accumulation of `target` (source lines 703-704). -/
def gains_score (ss : List SimSample) : ℚ :=
  ss.foldl (fun acc s => acc + s.fwd_gain) 0

/-- The VSWR accumulation of `target` (source lines 705-708). -/
def vswr_score (ss : List SimSample) : ℚ :=
  ss.foldl (fun acc s => acc + s.vswr) 0

/-- The reverse-gain accumulation of `target` (source lines 709-711):
a sample is added only when its reverse gain is strictly above -30. -/
def rev_gains_score (ss : List SimSample) : ℚ :=
  ss.foldl (fun acc s => if (-30 : ℚ) < s.rev_gain then acc + s.rev_gain else acc) 0

/-- The weighted objective formula of `target` (source line 718). -/
def scoreFormula (vswrWeight fwdGainWeight fbRatioWeight vswrS gainsS revS : ℚ) : ℚ :=
  vswrWeight * vswrS - fwdGainWeight * gainsS + fbRatioWeight * (revS - gainsS)

/-- Value returned by the objective function: `float('inf')` or a finite
score. -/
inductive Score where
  | inf : Score
  | val : ℚ → Score
  deriving DecidableEq

/-- The objective function `target` built by `create_optimization_target`
(source lines 674-749): reject invalid dimensions and NaN with an
infinite score, run the frequency sweep, map a solver `RuntimeError` to
an infinite score (any other abnormal outcome escapes to the caller, as
in the source where only `RuntimeError` is caught), and otherwise return
the weighted score. -/
def target (cfg : YagiConfig) (sim : SimOracle) (l1 l2 l3 d1 d2 : FloatVal) :
    Except PyErr Score :=
  let dm := cfg.elementDiameter * 0.0254
  let fds := cfg.foldedDipoleSpacing
  if dimsOutOfRange dm fds l1 l2 l3 d1 d2 then .ok .inf
  else if anyNan l1 l2 l3 d1 d2 then .ok .inf
  else
    match get_gain_swr_range cfg sim l1 l2 l3 d1 d2
        cfg.start_frq_opt cfg.stop_frq_opt cfg.step_frq_opt with
    | .error .runtimeError => .ok .inf
    | .error e => .error e
    | .ok samples =>
      .ok (.val (scoreFormula cfg.vswrWeight cfg.fwdGainWeight cfg.fbRatioWeight
        (vswr_score samples) (gains_score samples) (rev_gains_score samples)))

/-- Initial reflector length guess (source line 386): `0.487 * wavelength`. -/
def initial_l1 (wl : ℚ) : ℚ := 0.487 * wl

/-- Initial driven-element length guess (source line 387): `0.437 * wavelength`. -/
def initial_l2 (wl : ℚ) : ℚ := 0.437 * wl

/-- Initial director length guess (source line 388): `0.450 * wavelength`. -/
def initial_l3 (wl : ℚ) : ℚ := 0.450 * wl

/-- Initial reflector spacing guess (source line 389): `0.111 * wavelength`. -/
def initial_d1 (wl : ℚ) : ℚ := 0.111 * wl

/-- Initial director spacing guess (source line 390): `0.184 * wavelength`. -/
def initial_d2 (wl : ℚ) : ℚ := 0.184 * wl

/-- Per-parameter optimization bounds (source line 426). -/
structure OptBounds where
  minL1 : ℚ
  maxL1 : ℚ
  minL2 : ℚ
  maxL2 : ℚ
  minL3 : ℚ
  maxL3 : ℚ
  minD1 : ℚ
  maxD1 : ℚ
  minD2 : ℚ
  maxD2 : ℚ
  deriving DecidableEq

/-- Bound derivation of `updatePlot` (source lines 413-424). -/
def deriveBounds (il1 il2 il3 id1 id2 wr fds : ℚ) : OptBounds :=
  { minL1 := max (0.75 * il1) (2 * wr),
    maxL1 := max (1.25 * il1) (2 * wr),
    minL2 := max (0.75 * il2) (2 * wr),
    maxL2 := max (1.25 * il2) (2 * wr),
    minL3 := max (0.75 * il3) (2 * wr),
    maxL3 := max (1.25 * il3) (2 * wr),
    minD1 := max (0.5 * id1) (2 * wr + 0.0001),
    maxD1 := max (1.5 * id1) (2 * wr + 0.0002),
    minD2 := max (0.5 * id2) (fds + 2 * wr + 0.0001),
    maxD2 := max (1.5 * id2) (fds + 2 * wr + 0.0002) }

/-- The bounds `updatePlot` derives for a given configuration, applying
`deriveBounds` to the initial guesses computed from the wavelength. -/
def yagiBounds (cfg : YagiConfig) : OptBounds :=
  let wl := wavelength cfg.designFrq
  deriveBounds (initial_l1 wl) (initial_l2 wl) (initial_l3 wl)
    (initial_d1 wl) (initial_d2 wl)
    (wire_radius cfg.elementDiameter) cfg.foldedDipoleSpacing

/-- The pre-strategy phase of `updatePlot` (source lines 398-426): the
fatal interference check (`sys` exit at line 406, so no search strategy
ever runs), the non-fatal warning check (lines 407-411), and the bound
derivation.  On success it returns the bounds together with the flag
telling whether the degraded-feasibility warning was issued. -/
def preOptimize (cfg : YagiConfig) : Except PyErr (OptBounds × Bool) :=
  let wl := wavelength cfg.designFrq
  let wr := wire_radius cfg.elementDiameter
  let fds := cfg.foldedDipoleSpacing
  if 1.5 * initial_d2 wl ≤ fds + 2 * wr then .error .fatalError
  else .ok (yagiBounds cfg, decide (0.5 * initial_d2 wl ≤ fds + 2 * wr))

/-- The fifteen persisted configuration fields, in file order (source
lines 206-220).  The two combo-box indices are stored as rationals here;
their lines are parsed with `int(...)` in the source, which the per-line
parse-result model below covers. -/
structure YagiFileConfig where
  system_impedance : ℚ
  designFrq : ℚ
  plotFrqMin : ℚ
  plotFrqMax : ℚ
  plotFrqStep : ℚ
  optFrqStrt : ℚ
  optFrqStop : ℚ
  optFrqStep : ℚ
  elementDiameter : ℚ
  materialIndex : ℚ
  algorithmIndex : ℚ
  vswrWeight : ℚ
  fwdGainWeight : ℚ
  fbRatioWeight : ℚ
  foldedDipoleSpcInches : ℚ
  deriving DecidableEq

/-- Result of parsing the `i`-th line of a `.ygi` file: `none` when the
line is missing (`readline` returns an empty string at end of file) or
its text does not parse as a number for that field (`float(...)` or
`int(...)` raises `ValueError`). -/
def readLine (file : List (Option ℚ)) (i : ℕ) : Option ℚ :=
  (file.get? i).join

/-- The `.ygi` file loader of `clicked` (source lines 200-229): fields
are parsed and stored one line at a time; the first parse failure raises
inside the `try` block, the handler reports a failed load (`false`
here), and every field already stored keeps its newly read value. -/
def openYagiFile (c : YagiFileConfig) (file : List (Option ℚ)) :
    Bool × YagiFileConfig :=
  match readLine file 0 with
  | none => (false, c)
  | some v0 =>
  let c := { c with system_impedance := v0 }
  match readLine file 1 with
  | none => (false, c)
  | some v1 =>
  let c := { c with designFrq := v1 }
  match readLine file 2 with
  | none => (false, c)
  | some v2 =>
  let c := { c with plotFrqMin := v2 }
  match readLine file 3 with
  | none => (false, c)
  | some v3 =>
  let c := { c with plotFrqMax := v3 }
  match readLine file 4 with
  | none => (false, c)
  | some v4 =>
  let c := { c with plotFrqStep := v4 }
  match readLine file 5 with
  | none => (false, c)
  | some v5 =>
  let c := { c with optFrqStrt := v5 }
  match readLine file 6 with
  | none => (false, c)
  | some v6 =>
  let c := { c with optFrqStop := v6 }
  match readLine file 7 with
  | none => (false, c)
  | some v7 =>
  let c := { c with optFrqStep := v7 }
  match readLine file 8 with
  | none => (false, c)
  | some v8 =>
  let c := { c with elementDiameter := v8 }
  match readLine file 9 with
  | none => (false, c)
  | some v9 =>
  let c := { c with materialIndex := v9 }
  match readLine file 10 with
  | none => (false, c)
  | some v10 =>
  let c := { c with algorithmIndex := v10 }
  match readLine file 11 with
  | none => (false, c)
  | some v11 =>
  let c := { c with vswrWeight := v11 }
  match readLine file 12 with
  | none => (false, c)
  | some v12 =>
  let c := { c with fwdGainWeight := v12 }
  match readLine file 13 with
  | none => (false, c)
  | some v13 =>
  let c := { c with fbRatioWeight := v13 }
  match readLine file 14 with
  | none => (false, c)
  | some v14 =>
  (true, { c with foldedDipoleSpcInches := v14 })

/-- Shared concrete configuration: 0.125-inch aluminum elements, design
frequency 299.792 MHz (wavelength exactly 1 m), folded dipole disabled,
default weights 30/10/1, optimization sweep 144..146 MHz, segment
length 0.01 m. -/
def cfgBase : YagiConfig :=
  { elementDiameter := 0.125, foldedDipoleSpacing := 0, designFrq := 299.792,
    useFoldedDipole := false, elementMaterial := .aluminum,
    system_impedance := 50, vswrWeight := 30, fwdGainWeight := 10,
    fbRatioWeight := 1, start_frq_opt := 144, stop_frq_opt := 146,
    step_frq_opt := 1, length_segments := 0.01 }

/-- Shared concrete configuration with the folded dipole enabled at
0.05 m spacing. -/
def cfgFolded : YagiConfig :=
  { cfgBase with useFoldedDipole := true, foldedDipoleSpacing := 0.05 }

/-- The mesh produced by the geometry builder on `cfgBase` at the
concrete dimensions used by the witnesses below. -/
def meshBase : Mesh :=
  (geometry_yagi cfgBase (.fin 1) (.fin 0.9) (.fin 0.94) (.fin 0.23)
    (.fin 0.38)).toOption.getD ⟨[], 0, 0, 2, 1⟩

/-- The mesh produced by the geometry builder on `cfgFolded` at the same
concrete dimensions. -/
def meshFolded : Mesh :=
  (geometry_yagi cfgFolded (.fin 1) (.fin 0.9) (.fin 0.94) (.fin 0.23)
    (.fin 0.38)).toOption.getD ⟨[], 0, 0, 2, 1⟩

/-- A constant simulation oracle used by witnesses: forward gain 7 dBi,
reverse gain -20 dBi, VSWR 1.5 at every frequency. -/
def simConst : SimOracle := fun f _ => .ok ⟨f, 7, -20, 1.5⟩

/-- The samples `simConst` produces over the 144..146 MHz sweep. -/
def samplesConst : List SimSample :=
  [⟨144, 7, -20, 1.5⟩, ⟨145, 7, -20, 1.5⟩, ⟨146, 7, -20, 1.5⟩]

/-- Aggregate the claim C2 attributes to the code (modelled from the
spec's words): each sample contributes `max(reverseGain, -30)`. -/
def revGainSumClaim (ss : List SimSample) : ℚ :=
  (ss.map (fun s => max s.rev_gain (-30))).sum

/-- Concrete configuration for the C5 counterexample: wavelength exactly
1 m and element diameter 1000/127 in, so the wire radius is exactly
0.1 m.  The fatal check passes (0.276 > 0.2) with only the non-fatal
warning, yet the interference floor 0.2001 exceeds the initial `d1`
guess 0.111. -/
def cfgThickWire : YagiConfig := { cfgBase with elementDiameter := 1000 / 127 }

/-- Configuration whose folded-dipole spacing (0.3 m) makes the fatal
infeasibility check fire at wavelength 1 m. -/
def cfgInfeasible : YagiConfig :=
  { cfgFolded with foldedDipoleSpacing := 0.3 }

/-- Configuration whose folded-dipole spacing (0.1 m) passes the fatal
check but trips the degraded-feasibility warning at wavelength 1 m. -/
def cfgWarn : YagiConfig :=
  { cfgFolded with foldedDipoleSpacing := 0.1 }

/-- Concrete in-memory configuration before a file load. -/
def cfgFile0 : YagiFileConfig :=
  ⟨50, 144.1, 130, 160, 1, 144, 146, 1, 0.125, 0, 0, 30, 10, 1, 1.9685⟩

/-- The computable `Rat.floor` agrees with `Int.floor`. -/
theorem rat_floor_eq_intFloor (q : ℚ) : q.floor = ⌊q⌋ := by
  rw [Rat.floor_def', Rat.floor_def]

/-- Forcing an integer at least 2 odd yields an odd, positive count. -/
theorem oddify_of_two_le {n : ℤ} (h : 2 ≤ n) :
    oddify n % 2 = 1 ∧ 1 ≤ oddify n := by
  unfold oddify
  split <;> omega

/-- Positivity of the wavelength for a positive design frequency. -/
theorem wavelength_pos {f : ℚ} (hf : 0 < f) : 0 < wavelength f :=
  div_pos (by norm_num) (mul_pos hf (by norm_num))

/-- Truncation of `q / s` is at least 2 when `2 * s ≤ q` and `0 < s`. -/
theorem pyInt_two_le {q s : ℚ} (hs : 0 < s) (h : 2 * s ≤ q) :
    2 ≤ pyInt (q / s) := by
  have hq : 0 ≤ q / s := div_nonneg (le_trans (by positivity) h) (le_of_lt hs)
  unfold pyInt
  rw [if_pos hq, rat_floor_eq_intFloor]
  refine Int.le_floor.mpr ?_
  push_cast
  rw [le_div_iff₀ hs]
  linarith

/-- The length clamp either leaves a `+inf` value (which later raises in
`int()`) or produces a finite value at least twice the segment length. -/
theorem clampL_cases (x : FloatVal) (ls : ℚ) :
    clampL x ls = .inf ∨ ∃ q : ℚ, clampL x ls = .fin q ∧ 2 * ls ≤ q := by
  cases x with
  | nan => exact Or.inr ⟨2 * ls, by simp [clampL, FloatVal.isnan], le_refl _⟩
  | inf => exact Or.inl (by simp [clampL, FloatVal.lt, FloatVal.isnan])
  | ninf => exact Or.inr ⟨2 * ls, by simp [clampL, FloatVal.lt, FloatVal.isnan], le_refl _⟩
  | fin q =>
    by_cases h : q < 2 * ls
    · exact Or.inr ⟨2 * ls, by simp [clampL, FloatVal.lt, FloatVal.isnan, h], le_refl _⟩
    · exact Or.inr ⟨q, by simp [clampL, FloatVal.lt, FloatVal.isnan, h], le_of_not_lt h⟩

/-- A successfully computed main-element segment count is odd and positive
whenever the segment length is positive. -/
theorem elementSegments_ok {x : FloatVal} {ls : ℚ} {n : ℤ} (hls : 0 < ls)
    (h : elementSegments x ls = .ok n) : n % 2 = 1 ∧ 1 ≤ n := by
  rcases clampL_cases x ls with hc | ⟨q, hc, hq⟩ <;>
    rw [elementSegments, hc] at h <;>
    unfold pyIntDiv at h <;>
    rw [if_neg (ne_of_gt hls)] at h <;>
    simp [Except.map] at h
  rw [← h]
  exact oddify_of_two_le (pyInt_two_le hls hq)

/-- Shape of a successful folded-dipole wire list: tags 4, 5, 6, where
tag 4 reuses the driven element's count and tags 5, 6 use the riser
count `max 1 (int(spacing / segment length))`. -/
theorem foldedDipoleWires_mem {fds ls wr : ℚ} {l2 : FloatVal} {nr2 : ℤ}
    {ws : List Wire} (h : foldedDipoleWires fds ls wr l2 nr2 = .ok ws) :
    ∀ w ∈ ws, (w.tag = 4 ∧ w.nr_segments = nr2) ∨
      ((w.tag = 5 ∨ w.tag = 6) ∧ w.nr_segments = max 1 (pyInt (fds / ls))) := by
  simp only [foldedDipoleWires] at h
  split at h
  · cases h
  · split at h
    · cases h
    · cases h
      intro w hw
      simp only [List.mem_cons, List.not_mem_nil, or_false] at hw
      rcases hw with rfl | rfl | rfl
      · exact Or.inl ⟨rfl, rfl⟩
      · exact Or.inr ⟨Or.inl rfl, rfl⟩
      · exact Or.inr ⟨Or.inr rfl, rfl⟩

/-- Decomposition of a successful run of the geometry builder: the
segment-length check passed, and every wire of the mesh is either a main
element (tags 1, 2, 3) whose count comes from `elementSegments`, or a
folded-dipole wire (tags 4, 5, 6) whose count is the driven element's
count or the riser count. -/
theorem geometry_yagi_wires {cfg : YagiConfig} {l1 l2 l3 d1 d2 : FloatVal}
    {mesh : Mesh} (h : geometry_yagi cfg l1 l2 l3 d1 d2 = .ok mesh) :
    ¬ cfg.length_segments < wavelength cfg.designFrq / 1000 ∧
    ∀ w ∈ mesh.wires,
      (∃ nr, ((w.tag = 1 ∧ elementSegments l1 cfg.length_segments = .ok nr) ∨
              (w.tag = 2 ∧ elementSegments l2 cfg.length_segments = .ok nr) ∨
              (w.tag = 3 ∧ elementSegments l3 cfg.length_segments = .ok nr)) ∧
         w.nr_segments = nr) ∨
      (∃ nr2, elementSegments l2 cfg.length_segments = .ok nr2 ∧
        ((w.tag = 4 ∧ w.nr_segments = nr2) ∨
         ((w.tag = 5 ∨ w.tag = 6) ∧
           w.nr_segments = max 1
             (pyInt (cfg.foldedDipoleSpacing / cfg.length_segments))))) := by
  simp only [geometry_yagi] at h
  split at h
  · cases h
  next hwl =>
    split at h
    · cases h
    next nr1 heq1 =>
      split at h
      · cases h
      next nr2 heq2 =>
        split at h
        · cases h
        next foldedWs heqF =>
          split at h
          · cases h
          next nr3 heq3 =>
            injection h with h
            subst h
            refine ⟨hwl, ?_⟩
            intro w hw
            simp only [List.mem_append, List.mem_cons, List.not_mem_nil,
              or_false] at hw
            rcases hw with ((rfl | rfl) | hf) | rfl
            · exact Or.inl ⟨nr1, Or.inl ⟨rfl, heq1⟩, rfl⟩
            · exact Or.inl ⟨nr2, Or.inr (Or.inl ⟨rfl, heq2⟩), rfl⟩
            · split at heqF
              · exact Or.inr ⟨nr2, heq2, foldedDipoleWires_mem heqF w hf⟩
              · injection heqF with heqF
                rw [← heqF] at hf
                cases hf
            · exact Or.inl ⟨nr3, Or.inr (Or.inr ⟨rfl, heq3⟩), rfl⟩

/-- Claim C4: for every `GeometryParams` input and configuration for
which the geometry builder succeeds (and the design frequency is
positive, so the wavelength is a positive length), the segment counts
assigned to the reflector (tag 1), driven element (tag 2) and director
(tag 3) wires are all odd. -/
theorem C4_main_segment_counts_odd (cfg : YagiConfig)
    (l1 l2 l3 d1 d2 : FloatVal) (mesh : Mesh) (hf : 0 < cfg.designFrq)
    (h : geometry_yagi cfg l1 l2 l3 d1 d2 = .ok mesh) :
    ∀ w ∈ mesh.wires, w.tag = 1 ∨ w.tag = 2 ∨ w.tag = 3 →
      w.nr_segments % 2 = 1 := by
  obtain ⟨hwl, hmem⟩ := geometry_yagi_wires h
  have hls : 0 < cfg.length_segments := by
    have hwlpos := wavelength_pos hf
    have := not_lt.mp hwl
    linarith
  intro w hw htag
  rcases hmem w hw with ⟨nr, hcase, hn⟩ | ⟨nr2, _, hfold⟩
  · rcases hcase with ⟨_, he⟩ | ⟨_, he⟩ | ⟨_, he⟩ <;>
      rw [hn] <;> exact (elementSegments_ok hls he).1
  · rcases hfold with ⟨ht, _⟩ | ⟨ht | ht, _⟩ <;> rw [ht] at htag <;> omega

/-- Claim C10: whenever the geometry builder runs with a positive
segment length and succeeds, every wire it adds to the mesh (tags 1, 2,
3 and, when the folded dipole is enabled, 4, 5, 6) receives a segment
count of at least 1. -/
theorem C10_all_segment_counts_positive (cfg : YagiConfig)
    (l1 l2 l3 d1 d2 : FloatVal) (mesh : Mesh)
    (hls : 0 < cfg.length_segments)
    (h : geometry_yagi cfg l1 l2 l3 d1 d2 = .ok mesh) :
    ∀ w ∈ mesh.wires, 1 ≤ w.nr_segments := by
  obtain ⟨_, hmem⟩ := geometry_yagi_wires h
  intro w hw
  rcases hmem w hw with ⟨nr, hcase, hn⟩ | ⟨nr2, he2, hfold⟩
  · rcases hcase with ⟨_, he⟩ | ⟨_, he⟩ | ⟨_, he⟩ <;>
      rw [hn] <;> exact (elementSegments_ok hls he).2
  · rcases hfold with ⟨_, hn⟩ | ⟨_, hn⟩
    · rw [hn]
      exact (elementSegments_ok hls he2).2
    · rw [hn]
      exact le_max_left 1 _

/-- Witness for C4 at a concrete configuration and geometry. -/
theorem C4_main_segment_counts_odd_witness :
    0 < cfgBase.designFrq ∧
    geometry_yagi cfgBase (.fin 1) (.fin 0.9) (.fin 0.94) (.fin 0.23)
      (.fin 0.38) = .ok meshBase ∧
    ∀ w ∈ meshBase.wires, w.tag = 1 ∨ w.tag = 2 ∨ w.tag = 3 →
      w.nr_segments % 2 = 1 :=
  ⟨by with_unfolding_all decide, by with_unfolding_all rfl,
    C4_main_segment_counts_odd cfgBase (.fin 1) (.fin 0.9) (.fin 0.94)
      (.fin 0.23) (.fin 0.38) meshBase (by with_unfolding_all decide)
      (by with_unfolding_all rfl)⟩

/-- Witness for C10 at a concrete folded-dipole configuration, so that
all six wire tags occur. -/
theorem C10_all_segment_counts_positive_witness :
    0 < cfgFolded.length_segments ∧
    geometry_yagi cfgFolded (.fin 1) (.fin 0.9) (.fin 0.94) (.fin 0.23)
      (.fin 0.38) = .ok meshFolded ∧
    (meshFolded.wires.map Wire.tag = [1, 2, 4, 5, 6, 3]) ∧
    ∀ w ∈ meshFolded.wires, 1 ≤ w.nr_segments :=
  ⟨by with_unfolding_all decide, by with_unfolding_all rfl,
    by with_unfolding_all rfl,
    C10_all_segment_counts_positive cfgFolded (.fin 1) (.fin 0.9)
      (.fin 0.94) (.fin 0.23) (.fin 0.38) meshFolded
      (by with_unfolding_all decide) (by with_unfolding_all rfl)⟩

/-- Claim C1: for every candidate that passes the validity checks and
whose frequency sweep simulates successfully, the objective function
returns exactly
`vswrWeight*vswrSum - fwdGainWeight*gainSum + fbRatioWeight*(revGainSum - gainSum)`
where the three sums are the per-frequency aggregates over the sweep. -/
theorem C1_objective_score_formula (cfg : YagiConfig) (sim : SimOracle)
    (q1 q2 q3 q4 q5 : ℚ) (samples : List SimSample)
    (hvalid : dimsOutOfRange (cfg.elementDiameter * 0.0254)
      cfg.foldedDipoleSpacing (.fin q1) (.fin q2) (.fin q3) (.fin q4)
      (.fin q5) = false)
    (hsim : get_gain_swr_range cfg sim (.fin q1) (.fin q2) (.fin q3)
      (.fin q4) (.fin q5) cfg.start_frq_opt cfg.stop_frq_opt
      cfg.step_frq_opt = .ok samples) :
    target cfg sim (.fin q1) (.fin q2) (.fin q3) (.fin q4) (.fin q5) =
      .ok (.val (cfg.vswrWeight * vswr_score samples
        - cfg.fwdGainWeight * gains_score samples
        + cfg.fbRatioWeight * (rev_gains_score samples - gains_score samples))) := by
  simp only [target, hvalid, Bool.false_eq_true, if_false, anyNan,
    FloatVal.isnan, Bool.or_self, hsim, scoreFormula]

/-- Witness for C1 at a concrete configuration, oracle and candidate. -/
theorem C1_objective_score_formula_witness :
    dimsOutOfRange (cfgBase.elementDiameter * 0.0254)
      cfgBase.foldedDipoleSpacing (.fin 1) (.fin 0.9) (.fin 0.94)
      (.fin 0.23) (.fin 0.38) = false ∧
    get_gain_swr_range cfgBase simConst (.fin 1) (.fin 0.9) (.fin 0.94)
      (.fin 0.23) (.fin 0.38) cfgBase.start_frq_opt cfgBase.stop_frq_opt
      cfgBase.step_frq_opt = .ok samplesConst ∧
    target cfgBase simConst (.fin 1) (.fin 0.9) (.fin 0.94) (.fin 0.23)
      (.fin 0.38) =
      .ok (.val (cfgBase.vswrWeight * vswr_score samplesConst
        - cfgBase.fwdGainWeight * gains_score samplesConst
        + cfgBase.fbRatioWeight *
            (rev_gains_score samplesConst - gains_score samplesConst))) :=
  ⟨by with_unfolding_all rfl, by with_unfolding_all rfl,
    C1_objective_score_formula cfgBase simConst 1 0.9 0.94 0.23 0.38
      samplesConst (by with_unfolding_all rfl) (by with_unfolding_all rfl)⟩

/-- Counterexample for C2: with a single-frequency sweep whose sample
has reverse gain -40 dBi, the objective returns 30 (the -40 sample
contributes 0 to the reverse-gain aggregate), whereas the claimed
`max(reverseGain, -30)` aggregate would make the claimed formula yield 0. -/
theorem C2_rev_gain_counterexample :
    get_gain_swr_range { cfgBase with stop_frq_opt := 144 }
      (fun f _ => .ok ⟨f, 0, -40, 1⟩) (.fin 1) (.fin 0.9) (.fin 0.94)
      (.fin 0.23) (.fin 0.38) 144 144 1 = .ok [⟨144, 0, -40, 1⟩] ∧
    target { cfgBase with stop_frq_opt := 144 }
      (fun f _ => .ok ⟨f, 0, -40, 1⟩) (.fin 1) (.fin 0.9) (.fin 0.94)
      (.fin 0.23) (.fin 0.38) = .ok (.val 30) ∧
    scoreFormula 30 10 1 (vswr_score [⟨144, 0, -40, 1⟩])
      (gains_score [⟨144, 0, -40, 1⟩])
      (revGainSumClaim [⟨144, 0, -40, 1⟩]) = 0 ∧
    (30 : ℚ) ≠ 0 := by
  with_unfolding_all decide

/-- Claim C2 as amended: in the objective's aggregation, a sample whose
reverse gain is at or below -30 dBi contributes 0 (it is skipped), not
the floor value -30; the aggregate equals the sum of
`if reverseGain > -30 then reverseGain else 0` over the sweep. -/
theorem C2_rev_gain_aggregate_amended (ss : List SimSample) :
    rev_gains_score ss =
      (ss.map (fun s => if (-30 : ℚ) < s.rev_gain then s.rev_gain else 0)).sum := by
  have key : ∀ (l : List SimSample) (a : ℚ),
      l.foldl (fun acc s =>
        if (-30 : ℚ) < s.rev_gain then acc + s.rev_gain else acc) a =
      a + (l.map (fun s =>
        if (-30 : ℚ) < s.rev_gain then s.rev_gain else 0)).sum := by
    intro l
    induction l with
    | nil => intro a; simp
    | cons hd tl ih =>
      intro a
      simp only [List.foldl_cons, List.map_cons, List.sum_cons]
      by_cases h : (-30 : ℚ) < hd.rev_gain
      · rw [if_pos h, if_pos h, ih]; ring
      · rw [if_neg h, if_neg h, ih]; ring
  unfold rev_gains_score
  rw [key]
  simp

/-- Claim C9: with nonnegative configured weights, the objective score
is monotonically non-decreasing in the VSWR aggregate (gain terms fixed)
and monotonically non-increasing in the forward-gain aggregate
(VSWR and reverse-gain aggregates fixed). -/
theorem C9_score_monotone (wv wg wfb v v2 g g2 r : ℚ) :
    (0 ≤ wv → v ≤ v2 →
      scoreFormula wv wg wfb v g r ≤ scoreFormula wv wg wfb v2 g r) ∧
    (0 ≤ wg → 0 ≤ wfb → g ≤ g2 →
      scoreFormula wv wg wfb v g2 r ≤ scoreFormula wv wg wfb v g r) := by
  constructor
  · intro hwv hv
    unfold scoreFormula
    have := mul_le_mul_of_nonneg_left hv hwv
    linarith
  · intro hwg hwfb hg
    unfold scoreFormula
    have h1 := mul_le_mul_of_nonneg_left hg hwg
    have h2 : wfb * (r - g2) ≤ wfb * (r - g) :=
      mul_le_mul_of_nonneg_left (by linarith) hwfb
    linarith

/-- Witness for C9 at the default configured weights 30/10/1. -/
theorem C9_score_monotone_witness :
    scoreFormula 30 10 1 1 5 0 ≤ scoreFormula 30 10 1 2 5 0 ∧
    scoreFormula 30 10 1 1 6 0 ≤ scoreFormula 30 10 1 1 5 0 :=
  ⟨(C9_score_monotone 30 10 1 1 2 5 5 0).1 (by with_unfolding_all decide)
      (by with_unfolding_all decide),
   (C9_score_monotone 30 10 1 1 1 5 6 0).2 (by with_unfolding_all decide)
      (by with_unfolding_all decide) (by with_unfolding_all decide)⟩

/-- A candidate whose validity test at source line 681 evaluates true is
scored `+infinity`. -/
theorem target_of_dimsOutOfRange (cfg : YagiConfig) (sim : SimOracle)
    {l1 l2 l3 d1 d2 : FloatVal}
    (h : dimsOutOfRange (cfg.elementDiameter * 0.0254)
      cfg.foldedDipoleSpacing l1 l2 l3 d1 d2 = true) :
    target cfg sim l1 l2 l3 d1 d2 = .ok .inf := by
  simp only [target, h, if_true]

/-- A candidate containing a NaN parameter that survives the first
validity test is scored `+infinity` by the NaN test at source line 684. -/
theorem target_of_anyNan (cfg : YagiConfig) (sim : SimOracle)
    {l1 l2 l3 d1 d2 : FloatVal} (h : anyNan l1 l2 l3 d1 d2 = true) :
    target cfg sim l1 l2 l3 d1 d2 = .ok .inf := by
  simp only [target, h, if_true]
  split <;> rfl

/-- Counterexample for C3: a candidate whose reflector length `l1`
equals exactly the wire diameter in meters (0.125 in = 0.003175 m) is
not rejected: the length test is the strict `l1 < diameter`, so the
objective proceeds to simulation and returns a finite score (here -156
with the constant oracle), not `+infinity`. -/
theorem C3_l1_at_diameter_counterexample :
    cfgBase.elementDiameter * 0.0254 = 0.003175 ∧
    dimsOutOfRange (cfgBase.elementDiameter * 0.0254)
      cfgBase.foldedDipoleSpacing (.fin 0.003175) (.fin 0.9) (.fin 0.94)
      (.fin 0.23) (.fin 0.38) = false ∧
    target cfgBase simConst (.fin 0.003175) (.fin 0.9) (.fin 0.94)
      (.fin 0.23) (.fin 0.38) = .ok (.val (-156)) ∧
    Score.val (-156) ≠ Score.inf :=
  ⟨by with_unfolding_all rfl, by with_unfolding_all rfl,
   by with_unfolding_all rfl, by decide⟩

/-- Claim C3 as amended: the length rule is a strict inequality, so a
candidate with `l1` exactly equal to the wire diameter passes the `l1`
test (the test reduces to the remaining four disjuncts), while a
candidate with `d2` exactly equal to the folded-dipole spacing plus the
diameter is always rejected with score `+infinity` (the spacing rule is
`<=`). -/
theorem C3_boundary_semantics_amended (dm fds : ℚ) (l2 l3 d1 d2 : FloatVal)
    (cfg : YagiConfig) (sim : SimOracle) (m1 m2 m3 m4 : FloatVal) :
    (dimsOutOfRange dm fds (.fin dm) l2 l3 d1 d2 =
      (l2.lt (.fin dm) || l3.lt (.fin dm) || d1.le (.fin dm) ||
        d2.le (.fin (fds + dm)))) ∧
    target cfg sim m1 m2 m3 m4
      (.fin (cfg.foldedDipoleSpacing + cfg.elementDiameter * 0.0254)) =
      .ok .inf := by
  constructor
  · simp [dimsOutOfRange, FloatVal.lt, lt_irrefl]
  · apply target_of_dimsOutOfRange
    simp [dimsOutOfRange, FloatVal.le, Bool.or_true]

/-- Counterexample for C7: a candidate whose reflector length is
`+infinity` passes both validity tests (the comparisons with `+inf` are
false and `isnan(+inf)` is false), reaches the geometry builder, and
raises an uncaught `OverflowError` when `int()` is applied to the
infinite length, so the objective neither returns `+infinity` nor
absorbs the exception. -/
theorem C7_plus_inf_counterexample :
    target cfgBase simConst .inf (.fin 0.9) (.fin 0.94) (.fin 0.23)
      (.fin 0.38) = .error .overflowError := by
  with_unfolding_all rfl

/-- Claim C7 as amended: every candidate containing a NaN or `-infinity`
parameter is scored `+infinity` without an exception; a `+infinity`
length, however, escapes as an uncaught `OverflowError` (see the
counterexample). -/
theorem C7_nonfinite_amended (cfg : YagiConfig) (sim : SimOracle)
    (l1 l2 l3 d1 d2 : FloatVal)
    (h : l1 = .nan ∨ l2 = .nan ∨ l3 = .nan ∨ d1 = .nan ∨ d2 = .nan ∨
      l1 = .ninf ∨ l2 = .ninf ∨ l3 = .ninf ∨ d1 = .ninf ∨ d2 = .ninf) :
    target cfg sim l1 l2 l3 d1 d2 = .ok .inf := by
  rcases h with rfl | rfl | rfl | rfl | rfl | rfl | rfl | rfl | rfl | rfl
  · exact target_of_anyNan cfg sim (by simp [anyNan, FloatVal.isnan])
  · exact target_of_anyNan cfg sim (by simp [anyNan, FloatVal.isnan])
  · exact target_of_anyNan cfg sim (by simp [anyNan, FloatVal.isnan])
  · exact target_of_anyNan cfg sim (by simp [anyNan, FloatVal.isnan])
  · exact target_of_anyNan cfg sim (by simp [anyNan, FloatVal.isnan])
  · exact target_of_dimsOutOfRange cfg sim
      (by simp [dimsOutOfRange, FloatVal.lt])
  · exact target_of_dimsOutOfRange cfg sim
      (by simp [dimsOutOfRange, FloatVal.lt])
  · exact target_of_dimsOutOfRange cfg sim
      (by simp [dimsOutOfRange, FloatVal.lt])
  · exact target_of_dimsOutOfRange cfg sim
      (by simp [dimsOutOfRange, FloatVal.le])
  · exact target_of_dimsOutOfRange cfg sim
      (by simp [dimsOutOfRange, FloatVal.le])

/-- Witness for the amended C7 at a concrete NaN candidate. -/
theorem C7_nonfinite_amended_witness :
    target cfgBase simConst .nan (.fin 0.9) (.fin 0.94) (.fin 0.23)
      (.fin 0.38) = .ok .inf :=
  C7_nonfinite_amended cfgBase simConst .nan (.fin 0.9) (.fin 0.94)
    (.fin 0.23) (.fin 0.38) (Or.inl rfl)

/-- Counterexample for C5: bound derivation completes (the fatal check
does not fire; the run continues with the degraded-feasibility warning),
but the derived lower bound for `d1` is strictly above the initial `d1`
guess, so `min <= initial` fails. -/
theorem C5_bounds_counterexample :
    preOptimize cfgThickWire = .ok (yagiBounds cfgThickWire, true) ∧
    initial_d1 (wavelength cfgThickWire.designFrq) <
      (yagiBounds cfgThickWire).minD1 := by
  constructor
  · with_unfolding_all rfl
  · with_unfolding_all decide

/-- Claim C5 as amended: whenever bound derivation completes (the fatal
infeasibility check does not fire) and the configured diameter and
folded-dipole spacing are nonnegative, the derived bounds satisfy
`min <= initial <= max` for the three element lengths `l1, l2, l3`, and
`initial <= max` for the two spacings `d1, d2`; the lower spacing bounds
can exceed the initial guesses when the mechanical-interference floors
bind (see the counterexample). -/
theorem C5_bounds_amended (cfg : YagiConfig) (p : OptBounds × Bool)
    (hd : 0 ≤ cfg.elementDiameter) (hs : 0 ≤ cfg.foldedDipoleSpacing)
    (h : preOptimize cfg = .ok p) :
    (p.1.minL1 ≤ initial_l1 (wavelength cfg.designFrq) ∧
      initial_l1 (wavelength cfg.designFrq) ≤ p.1.maxL1) ∧
    (p.1.minL2 ≤ initial_l2 (wavelength cfg.designFrq) ∧
      initial_l2 (wavelength cfg.designFrq) ≤ p.1.maxL2) ∧
    (p.1.minL3 ≤ initial_l3 (wavelength cfg.designFrq) ∧
      initial_l3 (wavelength cfg.designFrq) ≤ p.1.maxL3) ∧
    initial_d1 (wavelength cfg.designFrq) ≤ p.1.maxD1 ∧
    initial_d2 (wavelength cfg.designFrq) ≤ p.1.maxD2 := by
  have hwr : 0 ≤ wire_radius cfg.elementDiameter :=
    mul_nonneg (div_nonneg hd (by norm_num)) (by norm_num)
  simp only [preOptimize] at h
  split at h
  · cases h
  next hfat =>
    have hfat' := not_le.mp hfat
    injection h with h
    subst h
    simp only [yagiBounds, deriveBounds, initial_l1, initial_l2,
      initial_l3, initial_d1, initial_d2] at hfat' ⊢
    set wl := wavelength cfg.designFrq with hwl
    set wr := wire_radius cfg.elementDiameter with hwrdef
    have hwlpos : 0 < wl := by nlinarith
    refine ⟨⟨max_le (by nlinarith) (by nlinarith),
        le_trans (by nlinarith) (le_max_left _ _)⟩,
      ⟨max_le (by nlinarith) (by nlinarith),
        le_trans (by nlinarith) (le_max_left _ _)⟩,
      ⟨max_le (by nlinarith) (by nlinarith),
        le_trans (by nlinarith) (le_max_left _ _)⟩,
      le_trans (by nlinarith) (le_max_left _ _),
      le_trans (by nlinarith) (le_max_left _ _)⟩

/-- Witness for the amended C5 at a concrete feasible configuration. -/
theorem C5_bounds_amended_witness :
    0 ≤ cfgFolded.elementDiameter ∧ 0 ≤ cfgFolded.foldedDipoleSpacing ∧
    preOptimize cfgFolded = .ok (yagiBounds cfgFolded, false) ∧
    (((yagiBounds cfgFolded).minL1 ≤
        initial_l1 (wavelength cfgFolded.designFrq) ∧
      initial_l1 (wavelength cfgFolded.designFrq) ≤
        (yagiBounds cfgFolded).maxL1) ∧
     ((yagiBounds cfgFolded).minL2 ≤
        initial_l2 (wavelength cfgFolded.designFrq) ∧
      initial_l2 (wavelength cfgFolded.designFrq) ≤
        (yagiBounds cfgFolded).maxL2) ∧
     ((yagiBounds cfgFolded).minL3 ≤
        initial_l3 (wavelength cfgFolded.designFrq) ∧
      initial_l3 (wavelength cfgFolded.designFrq) ≤
        (yagiBounds cfgFolded).maxL3) ∧
     initial_d1 (wavelength cfgFolded.designFrq) ≤
        (yagiBounds cfgFolded).maxD1 ∧
     initial_d2 (wavelength cfgFolded.designFrq) ≤
        (yagiBounds cfgFolded).maxD2) :=
  ⟨by with_unfolding_all decide, by with_unfolding_all decide,
   by with_unfolding_all rfl,
   C5_bounds_amended cfgFolded (yagiBounds cfgFolded, false)
     (by with_unfolding_all decide) (by with_unfolding_all decide)
     (by with_unfolding_all rfl)⟩

/-- Claim C6: before any search strategy is invoked, if
`1.5*initial_d2 <= foldedDipoleSpacing + wire diameter` the run is
aborted as infeasible (the application exits, so no strategy runs); if
instead only `0.5*initial_d2 <= foldedDipoleSpacing + wire diameter`,
the run continues with the degraded-feasibility warning flag set and
with the derived `d2` lower bound raised to the interference floor
`foldedDipoleSpacing + wire diameter + 0.0001`. -/
theorem C6_feasibility_gate (cfg : YagiConfig) :
    (1.5 * initial_d2 (wavelength cfg.designFrq) ≤
        cfg.foldedDipoleSpacing + 2 * wire_radius cfg.elementDiameter →
      preOptimize cfg = .error .fatalError) ∧
    (¬ 1.5 * initial_d2 (wavelength cfg.designFrq) ≤
        cfg.foldedDipoleSpacing + 2 * wire_radius cfg.elementDiameter →
      0.5 * initial_d2 (wavelength cfg.designFrq) ≤
        cfg.foldedDipoleSpacing + 2 * wire_radius cfg.elementDiameter →
      preOptimize cfg = .ok (yagiBounds cfg, true) ∧
      (yagiBounds cfg).minD2 =
        cfg.foldedDipoleSpacing + 2 * wire_radius cfg.elementDiameter
          + 0.0001) := by
  constructor
  · intro h
    simp only [preOptimize]
    rw [if_pos h]
  · intro h1 h2
    refine ⟨?_, ?_⟩
    · simp only [preOptimize]
      rw [if_neg h1, decide_eq_true h2]
    · simp only [yagiBounds, deriveBounds]
      exact max_eq_right (by linarith)

/-- Witness for C6: one concrete fatal configuration and one concrete
warning configuration. -/
theorem C6_feasibility_gate_witness :
    preOptimize cfgInfeasible = .error .fatalError ∧
    (preOptimize cfgWarn = .ok (yagiBounds cfgWarn, true) ∧
      (yagiBounds cfgWarn).minD2 = cfgWarn.foldedDipoleSpacing +
        2 * wire_radius cfgWarn.elementDiameter + 0.0001) :=
  ⟨(C6_feasibility_gate cfgInfeasible).1 (by with_unfolding_all decide),
   (C6_feasibility_gate cfgWarn).2 (by with_unfolding_all decide)
     (by with_unfolding_all decide)⟩

/-- Claim C8 as amended: any parse failure (non-numeric line or too few
lines) is reported as a load failure, but the in-memory configuration is
not left unchanged in general: a failure while reading line `k` leaves
every field from line `k` onward at its prior value while the fields of
lines before `k` already hold the newly read values (the source stores
each value as soon as its line is parsed, then catches the exception). -/
theorem C8_load_failure_amended (c : YagiFileConfig)
    (file : List (Option ℚ)) :
    (readLine file 0 = none →
      openYagiFile c file = (false, c)) ∧
    (∀ v0, readLine file 0 = some v0 → readLine file 1 = none →
      openYagiFile c file = (false, { c with system_impedance := v0 })) ∧
    (∀ v0 v1, readLine file 0 = some v0 → readLine file 1 = some v1 → readLine file 2 = none →
      openYagiFile c file = (false, { c with system_impedance := v0, designFrq := v1 })) ∧
    (∀ v0 v1 v2, readLine file 0 = some v0 → readLine file 1 = some v1 → readLine file 2 = some v2 → readLine file 3 = none →
      openYagiFile c file = (false, { c with system_impedance := v0, designFrq := v1, plotFrqMin := v2 })) ∧
    (∀ v0 v1 v2 v3, readLine file 0 = some v0 → readLine file 1 = some v1 → readLine file 2 = some v2 → readLine file 3 = some v3 → readLine file 4 = none →
      openYagiFile c file = (false, { c with system_impedance := v0, designFrq := v1, plotFrqMin := v2, plotFrqMax := v3 })) ∧
    (∀ v0 v1 v2 v3 v4, readLine file 0 = some v0 → readLine file 1 = some v1 → readLine file 2 = some v2 → readLine file 3 = some v3 → readLine file 4 = some v4 → readLine file 5 = none →
      openYagiFile c file = (false, { c with system_impedance := v0, designFrq := v1, plotFrqMin := v2, plotFrqMax := v3, plotFrqStep := v4 })) ∧
    (∀ v0 v1 v2 v3 v4 v5, readLine file 0 = some v0 → readLine file 1 = some v1 → readLine file 2 = some v2 → readLine file 3 = some v3 → readLine file 4 = some v4 → readLine file 5 = some v5 → readLine file 6 = none →
      openYagiFile c file = (false, { c with system_impedance := v0, designFrq := v1, plotFrqMin := v2, plotFrqMax := v3, plotFrqStep := v4, optFrqStrt := v5 })) ∧
    (∀ v0 v1 v2 v3 v4 v5 v6, readLine file 0 = some v0 → readLine file 1 = some v1 → readLine file 2 = some v2 → readLine file 3 = some v3 → readLine file 4 = some v4 → readLine file 5 = some v5 → readLine file 6 = some v6 → readLine file 7 = none →
      openYagiFile c file = (false, { c with system_impedance := v0, designFrq := v1, plotFrqMin := v2, plotFrqMax := v3, plotFrqStep := v4, optFrqStrt := v5, optFrqStop := v6 })) ∧
    (∀ v0 v1 v2 v3 v4 v5 v6 v7, readLine file 0 = some v0 → readLine file 1 = some v1 → readLine file 2 = some v2 → readLine file 3 = some v3 → readLine file 4 = some v4 → readLine file 5 = some v5 → readLine file 6 = some v6 → readLine file 7 = some v7 → readLine file 8 = none →
      openYagiFile c file = (false, { c with system_impedance := v0, designFrq := v1, plotFrqMin := v2, plotFrqMax := v3, plotFrqStep := v4, optFrqStrt := v5, optFrqStop := v6, optFrqStep := v7 })) ∧
    (∀ v0 v1 v2 v3 v4 v5 v6 v7 v8, readLine file 0 = some v0 → readLine file 1 = some v1 → readLine file 2 = some v2 → readLine file 3 = some v3 → readLine file 4 = some v4 → readLine file 5 = some v5 → readLine file 6 = some v6 → readLine file 7 = some v7 → readLine file 8 = some v8 → readLine file 9 = none →
      openYagiFile c file = (false, { c with system_impedance := v0, designFrq := v1, plotFrqMin := v2, plotFrqMax := v3, plotFrqStep := v4, optFrqStrt := v5, optFrqStop := v6, optFrqStep := v7, elementDiameter := v8 })) ∧
    (∀ v0 v1 v2 v3 v4 v5 v6 v7 v8 v9, readLine file 0 = some v0 → readLine file 1 = some v1 → readLine file 2 = some v2 → readLine file 3 = some v3 → readLine file 4 = some v4 → readLine file 5 = some v5 → readLine file 6 = some v6 → readLine file 7 = some v7 → readLine file 8 = some v8 → readLine file 9 = some v9 → readLine file 10 = none →
      openYagiFile c file = (false, { c with system_impedance := v0, designFrq := v1, plotFrqMin := v2, plotFrqMax := v3, plotFrqStep := v4, optFrqStrt := v5, optFrqStop := v6, optFrqStep := v7, elementDiameter := v8, materialIndex := v9 })) ∧
    (∀ v0 v1 v2 v3 v4 v5 v6 v7 v8 v9 v10, readLine file 0 = some v0 → readLine file 1 = some v1 → readLine file 2 = some v2 → readLine file 3 = some v3 → readLine file 4 = some v4 → readLine file 5 = some v5 → readLine file 6 = some v6 → readLine file 7 = some v7 → readLine file 8 = some v8 → readLine file 9 = some v9 → readLine file 10 = some v10 → readLine file 11 = none →
      openYagiFile c file = (false, { c with system_impedance := v0, designFrq := v1, plotFrqMin := v2, plotFrqMax := v3, plotFrqStep := v4, optFrqStrt := v5, optFrqStop := v6, optFrqStep := v7, elementDiameter := v8, materialIndex := v9, algorithmIndex := v10 })) ∧
    (∀ v0 v1 v2 v3 v4 v5 v6 v7 v8 v9 v10 v11, readLine file 0 = some v0 → readLine file 1 = some v1 → readLine file 2 = some v2 → readLine file 3 = some v3 → readLine file 4 = some v4 → readLine file 5 = some v5 → readLine file 6 = some v6 → readLine file 7 = some v7 → readLine file 8 = some v8 → readLine file 9 = some v9 → readLine file 10 = some v10 → readLine file 11 = some v11 → readLine file 12 = none →
      openYagiFile c file = (false, { c with system_impedance := v0, designFrq := v1, plotFrqMin := v2, plotFrqMax := v3, plotFrqStep := v4, optFrqStrt := v5, optFrqStop := v6, optFrqStep := v7, elementDiameter := v8, materialIndex := v9, algorithmIndex := v10, vswrWeight := v11 })) ∧
    (∀ v0 v1 v2 v3 v4 v5 v6 v7 v8 v9 v10 v11 v12, readLine file 0 = some v0 → readLine file 1 = some v1 → readLine file 2 = some v2 → readLine file 3 = some v3 → readLine file 4 = some v4 → readLine file 5 = some v5 → readLine file 6 = some v6 → readLine file 7 = some v7 → readLine file 8 = some v8 → readLine file 9 = some v9 → readLine file 10 = some v10 → readLine file 11 = some v11 → readLine file 12 = some v12 → readLine file 13 = none →
      openYagiFile c file = (false, { c with system_impedance := v0, designFrq := v1, plotFrqMin := v2, plotFrqMax := v3, plotFrqStep := v4, optFrqStrt := v5, optFrqStop := v6, optFrqStep := v7, elementDiameter := v8, materialIndex := v9, algorithmIndex := v10, vswrWeight := v11, fwdGainWeight := v12 })) ∧
    (∀ v0 v1 v2 v3 v4 v5 v6 v7 v8 v9 v10 v11 v12 v13, readLine file 0 = some v0 → readLine file 1 = some v1 → readLine file 2 = some v2 → readLine file 3 = some v3 → readLine file 4 = some v4 → readLine file 5 = some v5 → readLine file 6 = some v6 → readLine file 7 = some v7 → readLine file 8 = some v8 → readLine file 9 = some v9 → readLine file 10 = some v10 → readLine file 11 = some v11 → readLine file 12 = some v12 → readLine file 13 = some v13 → readLine file 14 = none →
      openYagiFile c file = (false, { c with system_impedance := v0, designFrq := v1, plotFrqMin := v2, plotFrqMax := v3, plotFrqStep := v4, optFrqStrt := v5, optFrqStop := v6, optFrqStep := v7, elementDiameter := v8, materialIndex := v9, algorithmIndex := v10, vswrWeight := v11, fwdGainWeight := v12, fbRatioWeight := v13 })) := by
  refine ⟨?_, ?_, ?_, ?_, ?_, ?_, ?_, ?_, ?_, ?_, ?_, ?_, ?_, ?_, ?_⟩
  · intro h0
    simp only [openYagiFile, h0]
  · intro v0 h0 h1
    simp only [openYagiFile, h0, h1]
  · intro v0 v1 h0 h1 h2
    simp only [openYagiFile, h0, h1, h2]
  · intro v0 v1 v2 h0 h1 h2 h3
    simp only [openYagiFile, h0, h1, h2, h3]
  · intro v0 v1 v2 v3 h0 h1 h2 h3 h4
    simp only [openYagiFile, h0, h1, h2, h3, h4]
  · intro v0 v1 v2 v3 v4 h0 h1 h2 h3 h4 h5
    simp only [openYagiFile, h0, h1, h2, h3, h4, h5]
  · intro v0 v1 v2 v3 v4 v5 h0 h1 h2 h3 h4 h5 h6
    simp only [openYagiFile, h0, h1, h2, h3, h4, h5, h6]
  · intro v0 v1 v2 v3 v4 v5 v6 h0 h1 h2 h3 h4 h5 h6 h7
    simp only [openYagiFile, h0, h1, h2, h3, h4, h5, h6, h7]
  · intro v0 v1 v2 v3 v4 v5 v6 v7 h0 h1 h2 h3 h4 h5 h6 h7 h8
    simp only [openYagiFile, h0, h1, h2, h3, h4, h5, h6, h7, h8]
  · intro v0 v1 v2 v3 v4 v5 v6 v7 v8 h0 h1 h2 h3 h4 h5 h6 h7 h8 h9
    simp only [openYagiFile, h0, h1, h2, h3, h4, h5, h6, h7, h8, h9]
  · intro v0 v1 v2 v3 v4 v5 v6 v7 v8 v9 h0 h1 h2 h3 h4 h5 h6 h7 h8 h9 h10
    simp only [openYagiFile, h0, h1, h2, h3, h4, h5, h6, h7, h8, h9, h10]
  · intro v0 v1 v2 v3 v4 v5 v6 v7 v8 v9 v10 h0 h1 h2 h3 h4 h5 h6 h7 h8 h9 h10 h11
    simp only [openYagiFile, h0, h1, h2, h3, h4, h5, h6, h7, h8, h9, h10, h11]
  · intro v0 v1 v2 v3 v4 v5 v6 v7 v8 v9 v10 v11 h0 h1 h2 h3 h4 h5 h6 h7 h8 h9 h10 h11 h12
    simp only [openYagiFile, h0, h1, h2, h3, h4, h5, h6, h7, h8, h9, h10, h11, h12]
  · intro v0 v1 v2 v3 v4 v5 v6 v7 v8 v9 v10 v11 v12 h0 h1 h2 h3 h4 h5 h6 h7 h8 h9 h10 h11 h12 h13
    simp only [openYagiFile, h0, h1, h2, h3, h4, h5, h6, h7, h8, h9, h10, h11, h12, h13]
  · intro v0 v1 v2 v3 v4 v5 v6 v7 v8 v9 v10 v11 v12 v13 h0 h1 h2 h3 h4 h5 h6 h7 h8 h9 h10 h11 h12 h13 h14
    simp only [openYagiFile, h0, h1, h2, h3, h4, h5, h6, h7, h8, h9, h10, h11, h12, h13, h14]

/-- Counterexample for C8: loading a file whose first line parses (75)
and whose second line does not is reported as a failure, yet the
in-memory system impedance has already been overwritten with 75, so not
every configuration field holds its prior value. -/
theorem C8_partial_load_counterexample :
    (openYagiFile cfgFile0 [some 75, none]).1 = false ∧
    (openYagiFile cfgFile0 [some 75, none]).2 ≠ cfgFile0 ∧
    (openYagiFile cfgFile0 [some 75, none]).2.system_impedance = 75 := by
  with_unfolding_all decide

/-- Witness for the amended C8: a failure on the third line keeps fields
2..14 and overwrites exactly the first two. -/
theorem C8_load_failure_amended_witness :
    openYagiFile cfgFile0 [some 75, some 146.5, none] =
      (false, { cfgFile0 with system_impedance := 75, designFrq := 146.5 }) :=
  (C8_load_failure_amended cfgFile0 [some 75, some 146.5, none]).2.2.1
    75 146.5 rfl rfl rfl


/-- Witness for the amended C2 at a concrete sample list: the -40 dBi
sample contributes 0 and the -10 dBi sample contributes -10. -/
theorem C2_rev_gain_aggregate_amended_witness :
    rev_gains_score [⟨144, 0, -40, 1⟩, ⟨145, 0, -10, 1⟩] =
      (([⟨144, 0, -40, 1⟩, ⟨145, 0, -10, 1⟩] : List SimSample).map
        (fun s => if (-30 : ℚ) < s.rev_gain then s.rev_gain else 0)).sum :=
  C2_rev_gain_aggregate_amended [⟨144, 0, -40, 1⟩, ⟨145, 0, -10, 1⟩]

/-- Witness for the amended C3 at concrete values. -/
theorem C3_boundary_semantics_amended_witness :
    (dimsOutOfRange 0.003175 0 (.fin 0.003175) (.fin 1) (.fin 1) (.fin 1)
        (.fin 1) =
      ((FloatVal.fin 1).lt (.fin 0.003175) ||
        (FloatVal.fin 1).lt (.fin 0.003175) ||
        (FloatVal.fin 1).le (.fin 0.003175) ||
        (FloatVal.fin 1).le (.fin (0 + 0.003175)))) ∧
    target cfgBase simConst (.fin 1) (.fin 1) (.fin 1) (.fin 1)
      (.fin (cfgBase.foldedDipoleSpacing +
        cfgBase.elementDiameter * 0.0254)) = .ok .inf :=
  C3_boundary_semantics_amended 0.003175 0 (.fin 1) (.fin 1) (.fin 1)
    (.fin 1) cfgBase simConst (.fin 1) (.fin 1) (.fin 1) (.fin 1)
